import Mathlib

/-!
Shallow embedding of `src/server.py` (mindforge-server-llm): a FastAPI
gateway in front of a local chat-completion backend.  The embedding models

* `read_prompt_file` — the `@lru_cache(maxsize=32)`-decorated template
  loader, as an explicit LRU cache state plus a count of backing-store
  reads;
* `healthz` — the liveness endpoint with its 5-second refresh window,
  as a function of the cached state, the current time and the probe
  outcome (NB: in the source, `healthz.last_check_time = current_time`
  at line 73 sits inside the `except` block, so it runs only when the
  probe raises);
* `generate` — the buffered `/v1/chat/completions` handler: template
  resolution, message composition, dispatch, and the `except` ladder
  mapping httpx errors to `HTTPException`s.  In httpx,
  `TimeoutException <: TransportError <: RequestError`, so the
  `except httpx.RequestError` arm catches timeouts as well; a
  `fastapi.HTTPException` raised by `read_prompt_file` is a plain
  `Exception` and is caught by the final catch-all arm, whose
  `str(e)` is `f"{status_code}: {detail}"`;
* `response_generator` — the streaming handler's generator: the
  chunk-forwarding loop plus the in-band JSON error record yielded
  when anything inside the `try` raises.

Machine floats (`temperature`) are carried as `Rat`: they are opaque
pass-through values here, never computed with.
-/

/-- A chat message, as validated by the `Message` pydantic model
(`src/server.py:27`). -/
structure Message where
  role : String
  content : String
deriving DecidableEq, Repr

/-- The `ChatRequest` body (`src/server.py:31`): `temperature` and
`max_tokens` are opaque pass-through values. -/
structure ChatRequest where
  model : String
  messages : List Message
  temperature : Rat
  max_tokens : Int
deriving DecidableEq, Repr

/-- The backing template store: `/prompts/<name>.txt` contents by name
(`none` = file does not exist). -/
def Store : Type := String → Option String

/-- The state of the `lru_cache(maxsize=32)` on `read_prompt_file`:
association list of cached `(name, contents)` pairs, most recently
used first. -/
structure TemplateCache where
  entries : List (String × String)
deriving DecidableEq, Repr

def TemplateCache.empty : TemplateCache := ⟨[]⟩

/-- `maxsize=32` of the `lru_cache` decorator (`src/server.py:42`). -/
def lruCapacity : Nat := 32

/-- Outcome of a template resolution: the file contents, or the
`HTTPException(404, ...)` detail raised at `src/server.py:46`. -/
inductive ResolveResult
  | found (contents : String)
  | notFound (detail : String)
deriving DecidableEq, Repr

/-- `read_prompt_file` (`src/server.py:42-48`) under its `lru_cache`:
on a hit the cached value is returned and moved to most-recently-used
with no store read; on a miss the store is read once; a successful
read is inserted at the front, evicting beyond `lruCapacity`; the
`HTTPException` raised on a missing file is not cached (Python's
`lru_cache` caches only returns, not exceptions).  The `Nat` component
counts backing-store reads (the `os.path.exists`/`open` access). -/
def read_prompt_file (store : Store) (cache : TemplateCache) (name : String) :
    ResolveResult × TemplateCache × Nat :=
  match cache.entries.lookup name with
  | some contents =>
      (ResolveResult.found contents,
       ⟨(name, contents) :: cache.entries.filter (fun e => e.1 ≠ name)⟩, 0)
  | none =>
      match store name with
      | some contents =>
          (ResolveResult.found contents,
           ⟨((name, contents) :: cache.entries).take lruCapacity⟩, 1)
      | none =>
          (ResolveResult.notFound
            (String.append (String.append "Prompt template " name) " not found"),
           cache, 1)

/-- The message-composition step shared by `generate`
(`src/server.py:85-87`) and `response_generator`
(`src/server.py:120-122`): rebuild the client messages, then
`insert(0, {"role": "system", ...})` guarded by Python truthiness of
`system_prompt` (false exactly when the string is empty). -/
def composeMessages (system_prompt : String) (msgs : List Message) : List Message :=
  if system_prompt = "" then msgs
  else ⟨"system", system_prompt⟩ :: msgs

/-- The JSON body posted to the backend (`src/server.py:89-94` buffered,
`src/server.py:124-130` streaming).  The buffered payload has no
`"stream"` key (`stream = none`); the streaming payload sets it to
`True` (`stream = some true`). -/
structure Payload where
  model : String
  messages : List Message
  temperature : Rat
  max_tokens : Int
  stream : Option Bool
deriving DecidableEq, Repr

/-- Outcome of the buffered backend call, mirroring the httpx exception
classes the handler distinguishes.  `timeoutError` is kept separate from
`requestError` even though `httpx.TimeoutException` is a subclass of
`httpx.RequestError`, so that the embedding of the `except` ladder can
record which arm catches it. -/
inductive BackendResult
  | success (body : String)
  | requestError (msg : String)
  | timeoutError (msg : String)
  | statusError (msg : String)
  | otherError (msg : String)
deriving DecidableEq, Repr

/-- A terminated request: the JSON body returned on success, or the
`HTTPException(status_code, detail)` raised to the client. -/
inductive GenResult
  | body (json : String)
  | httpError (status : Nat) (detail : String)
deriving DecidableEq, Repr

/-- The dispatch-and-except ladder of `generate` (`src/server.py:99-110`):
post the payload, `raise_for_status`, return the JSON body; map httpx
errors to `HTTPException`s per the three `except` arms
(`except httpx.RequestError`, which includes timeouts, maps to 502;
`except httpx.HTTPStatusError` from `raise_for_status` maps to 500;
the catch-all maps to 500). -/
def dispatchBuffered (payload : Payload) (backend : Payload → BackendResult) : GenResult :=
  match backend payload with
  | BackendResult.success b => GenResult.body b
  | BackendResult.requestError m =>
      GenResult.httpError 502 (String.append "Upstream request error: " m)
  | BackendResult.timeoutError m =>
      GenResult.httpError 502 (String.append "Upstream request error: " m)
  | BackendResult.statusError m =>
      GenResult.httpError 500 (String.append "Upstream server error: " m)
  | BackendResult.otherError m => GenResult.httpError 500 m

/-- The buffered payload built at `src/server.py:89-94` (no `"stream"` key). -/
def bufferedPayload (req : ChatRequest) (system_prompt : String) : Payload :=
  { model := req.model
    messages := composeMessages system_prompt req.messages
    temperature := req.temperature
    max_tokens := req.max_tokens
    stream := none }

/-- The buffered handler `generate` (`src/server.py:77-110`).  Returns
the client-facing result, the template cache after the request, and the
payload dispatched to the backend (`none` when the request never
reached the backend).  The `prompt` query parameter is tested with
Python truthiness (`if prompt:`), so `some ""` behaves like `none`.
A missing template raises `HTTPException(404, d)` inside the `try`,
which the final `except Exception` arm converts to
`HTTPException(500, str(e))` with `str(e) = "404: " ++ d`. -/
def generate (store : Store) (cache : TemplateCache) (prompt : Option String)
    (req : ChatRequest) (backend : Payload → BackendResult) :
    GenResult × TemplateCache × Option Payload :=
  match prompt with
  | some p =>
      if p = "" then
        (dispatchBuffered (bufferedPayload req "") backend, cache,
         some (bufferedPayload req ""))
      else
        match read_prompt_file store cache p with
        | (ResolveResult.notFound d, cache2, _) =>
            (GenResult.httpError 500 (String.append "404: " d), cache2, none)
        | (ResolveResult.found sys, cache2, _) =>
            (dispatchBuffered (bufferedPayload req sys) backend, cache2,
             some (bufferedPayload req sys))
  | none =>
      (dispatchBuffered (bufferedPayload req "") backend, cache,
       some (bufferedPayload req ""))

/-- How the backend byte stream ends: clean end-of-stream, or an
exception raised mid-iteration (connection reset, timeout, ...). -/
inductive StreamEnd
  | clean
  | failed (msg : String)
deriving DecidableEq, Repr

/-- `json.dumps(\x7b"error": str(e)\x7d).encode()` (`src/server.py:145`),
the in-band terminal error record. -/
def jsonErrorRecord (msg : String) : String :=
  String.append (String.append "\x7b\"error\": \"" msg) "\"\x7d"

/-- The chunk-forwarding loop of `response_generator`
(`src/server.py:141-145`): yield every received chunk in arrival order;
if the iteration raises, the `except` arm yields one JSON error record
and the generator ends. -/
def relayStream (chunks : List String) (ending : StreamEnd) : List String :=
  match ending with
  | StreamEnd.clean => chunks
  | StreamEnd.failed msg => chunks ++ [jsonErrorRecord msg]

/-- The streaming payload built at `src/server.py:124-130`
(`"stream": True`). -/
def streamingPayload (req : ChatRequest) (system_prompt : String) : Payload :=
  { model := req.model
    messages := composeMessages system_prompt req.messages
    temperature := req.temperature
    max_tokens := req.max_tokens
    stream := some true }

/-- `response_generator` inside `generate_stream`
(`src/server.py:114-145`).  `streamOf` gives, per payload, the chunks
the backend delivered and how the stream ended.  Returns the byte
chunks yielded to the client and the payload dispatched (`none` when
the backend was never contacted).  A missing template raises
`HTTPException(404, d)` inside the `try`; the generator's
`except Exception` arm yields `\x7b"error": str(e)\x7d` with
`str(e) = "404: " ++ d`. -/
def response_generator (store : Store) (cache : TemplateCache) (prompt : Option String)
    (req : ChatRequest) (streamOf : Payload → List String × StreamEnd) :
    List String × TemplateCache × Option Payload :=
  match prompt with
  | some p =>
      if p = "" then
        let payload := streamingPayload req ""
        (relayStream (streamOf payload).1 (streamOf payload).2, cache, some payload)
      else
        match read_prompt_file store cache p with
        | (ResolveResult.notFound d, cache2, _) =>
            ([jsonErrorRecord (String.append "404: " d)], cache2, none)
        | (ResolveResult.found sys, cache2, _) =>
            let payload := streamingPayload req sys
            (relayStream (streamOf payload).1 (streamOf payload).2, cache2, some payload)
  | none =>
      let payload := streamingPayload req ""
      (relayStream (streamOf payload).1 (streamOf payload).2, cache, some payload)

/-- The two JSON values the health endpoint can cache:
`\x7b"status": "ok", "upstream": true\x7d` and
`\x7b"status": "degraded", "upstream": false\x7d`
(`src/server.py:68,70,72`). -/
inductive HealthStatus
  | ok_upstream
  | degraded
deriving DecidableEq, Repr

/-- The function attributes `healthz.last_check_time` (default `0` via
`getattr`) and `healthz.last_status` (default `None`). -/
structure HealthState where
  lastCheck : Int
  lastStatus : Option HealthStatus
deriving DecidableEq, Repr

/-- Process-start state: neither attribute set (`getattr` defaults). -/
def HealthState.init : HealthState := ⟨0, none⟩

/-- Outcome of the 2-second probe `GET http://127.0.0.1:8080/`:
a response with some status code, or a raised exception (timeout,
connection error). -/
inductive ProbeOutcome
  | response (statusCode : Nat)
  | exn
deriving DecidableEq, Repr

/-- The `healthz` handler (`src/server.py:55-75`) as a function of the
cached state, the current time and the probe outcome (the probe is
consulted only when the refresh condition fires).  Returns the state
after the call and whether a probe was issued; the JSON served to the
caller is the new state's `lastStatus`.  Faithful detail: the source
line `healthz.last_check_time = current_time` (line 73) is indented
inside the `except` block, so `lastCheck` is updated only when the
probe raises — never on a probe that returned a response. -/
def healthz (s : HealthState) (now : Int) (probe : ProbeOutcome) :
    HealthState × Bool :=
  if 5 < now - s.lastCheck ∨ s.lastStatus = none then
    match probe with
    | ProbeOutcome.response code =>
        if code < 500 then
          ({ lastCheck := s.lastCheck, lastStatus := some HealthStatus.ok_upstream }, true)
        else
          ({ lastCheck := s.lastCheck, lastStatus := some HealthStatus.degraded }, true)
    | ProbeOutcome.exn =>
        ({ lastCheck := now, lastStatus := some HealthStatus.degraded }, true)
  else
    (s, false)

/-! Concrete fixtures used by closed theorems and witnesses. -/

/-- A `/prompts` directory with no files. -/
def emptyStore : Store := fun _ => none

/-- A store whose only template is `helpful.txt` containing
"You are helpful.". -/
def storeHelpful : Store :=
  fun n => if n = "helpful" then some "You are helpful." else none

/-- A store whose only template is `empty.txt`, an empty file. -/
def storeEmptyTemplate : Store :=
  fun n => if n = "empty" then some "" else none

/-- The sample request of the spec scenario: `messages=[\x7buser,"hi"\x7d]`. -/
def sampleReq : ChatRequest :=
  { model := "m", messages := [Message.mk "user" "hi"],
    temperature := 7 / 10, max_tokens := 100 }

/-! Helper lemmas. -/

/-- Removing all entries with a key that is present strictly shrinks an
association list (used for the LRU move-to-front size bound). -/
theorem length_filter_ne_of_lookup (l : List (String × String)) (a : String) (c : String)
    (h : l.lookup a = some c) :
    (l.filter (fun e => e.1 ≠ a)).length < l.length := by
  induction l with
  | nil => simp [List.lookup] at h
  | cons hd tl ih =>
    rcases hd with ⟨k, v⟩
    by_cases hk : k = a
    · subst hk
      have h1 : (tl.filter (fun e => e.1 ≠ k)).length ≤ tl.length :=
        tl.length_filter_le _
      have hfc : (((k, v) :: tl).filter (fun e => e.1 ≠ k))
          = tl.filter (fun e => e.1 ≠ k) := by
        simp [List.filter_cons]
      rw [hfc]
      simpa using Nat.lt_succ_of_le h1
    · have h2 : tl.lookup a = some c := by
        have hbeq : (a == k) = false := by
          simp only [beq_eq_false_iff_ne, ne_eq]
          exact fun hh => hk hh.symm
        simpa [List.lookup, hbeq] using h
      have hfc : (((k, v) :: tl).filter (fun e => e.1 ≠ a))
          = (k, v) :: tl.filter (fun e => e.1 ≠ a) := by
        simp [List.filter_cons, hk]
      rw [hfc]
      simpa using Nat.succ_lt_succ (ih h2)

/-! Claim theorems. -/

/-- C1: code-bug witness.  For the unknown template name "xyz" the
handler never dispatches to the backend (third component `none`), but
the client-facing failure is `HTTPException(500, "404: Prompt template
xyz not found")`, not the 404 the claim (and `read_prompt_file`'s own
`HTTPException(status_code=404, ...)`) requires: the `except Exception`
arm at `src/server.py:109-110` re-wraps the raised 404 as a 500. -/
theorem C1_unknown_template_eval :
    generate emptyStore TemplateCache.empty (some "xyz") sampleReq
        (fun _ => BackendResult.success "ok")
      = (GenResult.httpError 500 "404: Prompt template xyz not found",
         TemplateCache.empty, none) := by
  rfl

/-- C2: code-bug witness.  Two `healthz` calls 3 seconds apart, the
first probe succeeding (HTTP 200): both calls issue a probe, and the
second call's served state (degraded, after a 503) differs from the
first's (ok) — because `healthz.last_check_time` is assigned only
inside the `except` block (`src/server.py:73`), a successful probe
never updates it, so the 5-second window is not honoured. -/
theorem C2_window_not_respected :
    (healthz HealthState.init 100 (ProbeOutcome.response 200)).2 = true
    ∧ (healthz HealthState.init 100 (ProbeOutcome.response 200)).1.lastStatus
        = some HealthStatus.ok_upstream
    ∧ (healthz (healthz HealthState.init 100 (ProbeOutcome.response 200)).1 103
        (ProbeOutcome.response 503)).2 = true
    ∧ (healthz (healthz HealthState.init 100 (ProbeOutcome.response 200)).1 103
        (ProbeOutcome.response 503)).1.lastStatus = some HealthStatus.degraded := by
  decide

/-- C4: streaming relay.  Chunks are yielded in exactly the order
received; a clean end yields precisely the chunks; a mid-stream failure
after the chunks yields them followed by one terminal JSON error
record, which is never equal to the clean-end output (no silent
truncation); and the `/v1/chat/completions/stream` handler without a
template relays exactly this way. -/
theorem C4_stream_order_and_terminal_error (chunks : List String) (msg : String) :
    relayStream chunks StreamEnd.clean = chunks
    ∧ relayStream chunks (StreamEnd.failed msg) = chunks ++ [jsonErrorRecord msg]
    ∧ relayStream chunks (StreamEnd.failed msg) ≠ relayStream chunks StreamEnd.clean
    ∧ ∀ (store : Store) (cache : TemplateCache) (req : ChatRequest)
        (streamOf : Payload → List String × StreamEnd),
        (response_generator store cache none req streamOf).1
          = relayStream (streamOf (streamingPayload req "")).1
              (streamOf (streamingPayload req "")).2 := by
  refine ⟨rfl, rfl, ?_, fun _ _ _ _ => rfl⟩
  intro h
  have hlen := congrArg List.length h
  simp [relayStream] at hlen

/-- C4 witness: the three-chunks-then-reset scenario of the spec. -/
theorem C4_witness :
    relayStream ["a", "b", "c"] (StreamEnd.failed "reset")
      = ["a", "b", "c"] ++ [jsonErrorRecord "reset"] :=
  (C4_stream_order_and_terminal_error ["a", "b", "c"] "reset").2.1

/-- C9: composing with no template is the identity on the message list,
and the buffered handler called without a `prompt` parameter dispatches
a payload whose messages are exactly the client's. -/
theorem C9_compose_none_identity (M : List Message) :
    composeMessages "" M = M
    ∧ ∀ (store : Store) (cache : TemplateCache) (req : ChatRequest)
        (backend : Payload → BackendResult),
        (generate store cache none req backend).2.2.map Payload.messages
          = some req.messages := by
  constructor
  · simp [composeMessages]
  · intro store cache req backend
    simp [generate, bufferedPayload, composeMessages]

/-- C9 witness: identity on the sample request's messages. -/
theorem C9_witness :
    composeMessages "" [Message.mk "user" "hi"] = [Message.mk "user" "hi"] :=
  (C9_compose_none_identity [Message.mk "user" "hi"]).1

/-- C3 counterexample: the template "empty" resolves successfully with
body "", yet composing with that body does not extend the message list
(`if system_prompt:` is false for the empty string), so the buffered
payload's messages have length `len(M)`, not `len(M)+1`. -/
theorem C3_empty_body_counterexample :
    (read_prompt_file storeEmptyTemplate TemplateCache.empty "empty").1
      = ResolveResult.found ""
    ∧ (generate storeEmptyTemplate TemplateCache.empty (some "empty") sampleReq
        (fun _ => BackendResult.success "ok")).2.2.map
          (fun p => p.messages.length) = some 1
    ∧ sampleReq.messages.length + 1 = 2 := by
  refine ⟨rfl, ?_, rfl⟩
  rfl

/-- C3 amended: for every message list M and every resolved template
whose body is non-empty, the composed list is the system message
wrapping the body followed by M unchanged — length `len(M)+1`, element
0 the system message, elements 1.. exactly M (a client-supplied system
message is neither filtered nor merged). -/
theorem C3_compose_prepends_system (M : List Message) (body : String)
    (h : body ≠ "") :
    composeMessages body M = Message.mk "system" body :: M
    ∧ (composeMessages body M).length = M.length + 1
    ∧ (composeMessages body M).head? = some (Message.mk "system" body)
    ∧ (composeMessages body M).tail = M := by
  have hc : composeMessages body M = Message.mk "system" body :: M := by
    simp [composeMessages, h]
  exact ⟨hc, by simp [hc], by simp [hc], by simp [hc]⟩

/-- C3 witness: the spec's "helpful" scenario. -/
theorem C3_witness :
    composeMessages "You are helpful." [Message.mk "user" "hi"]
      = Message.mk "system" "You are helpful." :: [Message.mk "user" "hi"] :=
  (C3_compose_prepends_system [Message.mk "user" "hi"] "You are helpful."
    (by decide)).1

/-- C5 counterexample: a timeout and a connection failure with the same
message produce literally identical client-facing responses —
`HTTPException(502, "Upstream request error: boom")` — because
`httpx.TimeoutException` is a subclass of `httpx.RequestError` and is
caught by the same `except` arm (`src/server.py:105-106`), so the
timeout is not surfaced as a kind distinct from UpstreamUnreachable. -/
theorem C5_timeout_indistinct :
    generate emptyStore TemplateCache.empty none sampleReq
        (fun _ => BackendResult.timeoutError "boom")
      = generate emptyStore TemplateCache.empty none sampleReq
          (fun _ => BackendResult.requestError "boom")
    ∧ (generate emptyStore TemplateCache.empty none sampleReq
        (fun _ => BackendResult.timeoutError "boom")).1
      = GenResult.httpError 502 "Upstream request error: boom" := by
  exact ⟨rfl, rfl⟩

/-- C5 amended: a buffered-call timeout is surfaced as the same
502 "Upstream request error" kind used for connection-level failures
(slow and down backends are distinguishable only through the exception
message text embedded in the detail, not by error kind or status). -/
theorem C5_timeout_maps_to_502 (store : Store) (cache : TemplateCache)
    (req : ChatRequest) (m : String) :
    (generate store cache none req (fun _ => BackendResult.timeoutError m)).1
      = GenResult.httpError 502 (String.append "Upstream request error: " m)
    ∧ (generate store cache none req (fun _ => BackendResult.timeoutError m)).1
      = (generate store cache none req (fun _ => BackendResult.requestError m)).1 := by
  exact ⟨rfl, rfl⟩

/-- C5 witness: concrete instance of the amended mapping. -/
theorem C5_witness :
    (generate emptyStore TemplateCache.empty none sampleReq
        (fun _ => BackendResult.timeoutError "slow")).1
      = GenResult.httpError 502 (String.append "Upstream request error: " "slow") :=
  (C5_timeout_maps_to_502 emptyStore TemplateCache.empty sampleReq "slow").1

/-- C6: whenever the refresh condition fires, the probe outcome is
absorbed into a plain cached status value — the handler returns a
status for every outcome, exceptions included, never re-raising —
with a response below 500 cached as ok and a timeout, connection error
or 5xx-class response cached as degraded. -/
theorem C6_probe_absorbed (s : HealthState) (now : Int) (probe : ProbeOutcome)
    (h : 5 < now - s.lastCheck ∨ s.lastStatus = none) :
    (healthz s now probe).1.lastStatus
      = some (match probe with
              | ProbeOutcome.response code =>
                  if code < 500 then HealthStatus.ok_upstream
                  else HealthStatus.degraded
              | ProbeOutcome.exn => HealthStatus.degraded)
    ∧ (healthz s now probe).2 = true := by
  unfold healthz
  rw [if_pos h]
  cases probe with
  | response code =>
      by_cases hc : code < 500
      · simp [hc]
      · simp [hc]
  | exn => simp

/-- C6 witness: a probe exception at process start is absorbed as
degraded. -/
theorem C6_witness :
    (healthz HealthState.init 10 ProbeOutcome.exn).1.lastStatus
        = some HealthStatus.degraded
    ∧ (healthz HealthState.init 10 ProbeOutcome.exn).2 = true :=
  C6_probe_absorbed HealthState.init 10 ProbeOutcome.exn (by decide)

/-- C7: buffered-call failure mapping.  A connection-level failure maps
to `HTTPException(502, "Upstream request error: ...")` (bad gateway), a
backend non-success status maps to `HTTPException(500, "Upstream
server error: ...")` carrying the backend detail, and for every prompt
parameter and backend behaviour the handler terminates with either a
JSON body or a structured `HTTPException` — never an uncaught crash. -/
theorem C7_failure_mapping (store : Store) (cache : TemplateCache)
    (req : ChatRequest) (m : String) :
    (generate store cache none req (fun _ => BackendResult.requestError m)).1
      = GenResult.httpError 502 (String.append "Upstream request error: " m)
    ∧ (generate store cache none req (fun _ => BackendResult.statusError m)).1
      = GenResult.httpError 500 (String.append "Upstream server error: " m)
    ∧ ∀ (prompt : Option String) (backend : Payload → BackendResult),
        (∃ b, (generate store cache prompt req backend).1 = GenResult.body b)
        ∨ (∃ st d, (generate store cache prompt req backend).1
              = GenResult.httpError st d) := by
  refine ⟨rfl, rfl, ?_⟩
  intro prompt backend
  cases prompt with
  | none =>
      cases hb : backend (bufferedPayload req "") <;>
        simp [generate, dispatchBuffered, hb]
  | some p =>
      by_cases hp : p = ""
      · subst hp
        cases hb : backend (bufferedPayload req "") <;>
          simp [generate, dispatchBuffered, hb]
      · rcases hr : read_prompt_file store cache p with ⟨res, cache2, n⟩
        cases res with
        | notFound d => simp [generate, hp, hr]
        | found sys =>
            cases hb : backend (bufferedPayload req sys) <;>
              simp [generate, dispatchBuffered, hp, hr, hb]

/-- C7 witness: concrete instance of the 502 mapping. -/
theorem C7_witness :
    (generate emptyStore TemplateCache.empty none sampleReq
        (fun _ => BackendResult.requestError "down")).1
      = GenResult.httpError 502 (String.append "Upstream request error: " "down") :=
  (C7_failure_mapping emptyStore TemplateCache.empty sampleReq "down").1

/-- C8 counterexample: for a name absent from the store, the second of
two back-to-back resolutions still reads the backing store (read count
1, not 0) — Python's `lru_cache` caches returned values only, and
`read_prompt_file` raises on a missing file, so failed resolutions are
never cached and each retry re-reads the store. -/
theorem C8_unknown_name_rereads :
    (read_prompt_file emptyStore TemplateCache.empty "xyz").2.2 = 1
    ∧ (read_prompt_file emptyStore
        (read_prompt_file emptyStore TemplateCache.empty "xyz").2.1 "xyz").2.2 = 1
    ∧ (read_prompt_file emptyStore
        (read_prompt_file emptyStore TemplateCache.empty "xyz").2.1 "xyz").1
      = (read_prompt_file emptyStore TemplateCache.empty "xyz").1 := by
  exact ⟨rfl, rfl, rfl⟩

/-- C8 amended: for every template name present in the store, resolving
twice without store mutation returns identical contents and the second
resolution performs zero backing-store reads; the cache stays within
its capacity of 32 entries; and on a miss with a full cache the new
entry is inserted at the most-recently-used front while the
least-recently-used (last) entry is evicted. -/
theorem C8_cache_hit_and_lru (store : Store) (cache : TemplateCache)
    (name contents : String)
    (hstore : store name = some contents)
    (hlen : cache.entries.length ≤ lruCapacity) :
    ((read_prompt_file store (read_prompt_file store cache name).2.1 name).1
        = (read_prompt_file store cache name).1
     ∧ (read_prompt_file store (read_prompt_file store cache name).2.1 name).2.2 = 0
     ∧ (read_prompt_file store cache name).2.1.entries.length ≤ lruCapacity)
    ∧ (cache.entries.lookup name = none → cache.entries.length = lruCapacity →
        (read_prompt_file store cache name).2.1.entries
          = (name, contents) :: cache.entries.dropLast) := by
  cases hl : cache.entries.lookup name with
  | some c =>
      have hr1 : read_prompt_file store cache name
          = (ResolveResult.found c,
             ⟨(name, c) :: cache.entries.filter (fun e => e.1 ≠ name)⟩, 0) := by
        simp [read_prompt_file, hl]
      refine ⟨⟨?_, ?_, ?_⟩, ?_⟩
      · rw [hr1]
        simp [read_prompt_file, List.lookup]
      · rw [hr1]
        simp [read_prompt_file, List.lookup]
      · rw [hr1]
        have hf := length_filter_ne_of_lookup cache.entries name c hl
        simpa using Nat.le_trans (Nat.succ_le_of_lt hf) hlen
      · intro hl' _
        exact absurd hl' (by simp)
  | none =>
      have hr1 : read_prompt_file store cache name
          = (ResolveResult.found contents,
             ⟨((name, contents) :: cache.entries).take lruCapacity⟩, 1) := by
        simp [read_prompt_file, hl, hstore]
      have htake : ((name, contents) :: cache.entries).take lruCapacity
          = (name, contents) :: cache.entries.take 31 := by
        simp [lruCapacity, List.take_succ_cons]
      refine ⟨⟨?_, ?_, ?_⟩, ?_⟩
      · rw [hr1]
        simp [read_prompt_file, htake, List.lookup]
      · rw [hr1]
        simp [read_prompt_file, htake, List.lookup]
      · rw [hr1]
        exact List.length_take_le lruCapacity ((name, contents) :: cache.entries)
      · intro _ hfull
        rw [hr1, htake]
        have hdl : cache.entries.dropLast = cache.entries.take 31 := by
          rw [List.dropLast_eq_take, hfull]
          simp [lruCapacity]
        rw [hdl]

/-- C8 witness: the "helpful" template is served from the cache on
the second resolution with no store read. -/
theorem C8_witness :
    (read_prompt_file storeHelpful
        (read_prompt_file storeHelpful TemplateCache.empty "helpful").2.1
        "helpful").2.2 = 0 :=
  (C8_cache_hit_and_lru storeHelpful TemplateCache.empty "helpful"
    "You are helpful." (by decide) (by decide)).1.2.1

/-- C10: a template that resolves successfully to the empty string
prepends nothing — `if system_prompt:` is false — so the dispatched
payload's messages equal the client's messages unchanged, in both the
buffered and the streaming handler. -/
theorem C10_empty_body_no_prepend (store : Store) (cache : TemplateCache)
    (name : String) (req : ChatRequest) (backend : Payload → BackendResult)
    (streamOf : Payload → List String × StreamEnd)
    (hname : name ≠ "")
    (hres : (read_prompt_file store cache name).1 = ResolveResult.found "") :
    (generate store cache (some name) req backend).2.2.map Payload.messages
        = some req.messages
    ∧ (response_generator store cache (some name) req streamOf).2.2.map
        Payload.messages = some req.messages := by
  rcases hr : read_prompt_file store cache name with ⟨res, cache2, k⟩
  rw [hr] at hres
  simp only at hres
  subst hres
  constructor
  · simp [generate, hname, hr, bufferedPayload, composeMessages]
  · simp [response_generator, hname, hr, streamingPayload, composeMessages]

/-- C10 witness: the empty template file scenario on the sample
request. -/
theorem C10_witness :
    (generate storeEmptyTemplate TemplateCache.empty (some "empty") sampleReq
        (fun _ => BackendResult.success "ok")).2.2.map Payload.messages
      = some sampleReq.messages :=
  (C10_empty_body_no_prepend storeEmptyTemplate TemplateCache.empty "empty"
    sampleReq (fun _ => BackendResult.success "ok")
    (fun _ => ([], StreamEnd.clean)) (by decide) (by decide)).1
